import Mathlib

/-!
Verification development for the `platform-engineering-github-agent`
repository (files `github_tool.py` and `app.py`).

The tools are shallowly embedded: each HTTP interaction is represented by
an explicit `HttpOutcome` value (a status code together with the decoded
payload, or a transport-level exception), and each tool function becomes a
Lean function of the relevant outcome(s).  A Python function that can let
an exception escape is embedded with result type `Except String String`,
where `Except.error` is a raised exception and `Except.ok` a returned
string; a Python function whose body is wrapped in a catch-all handler is
embedded with plain result type `String`.

Python string primitives (`str.lower`, `str.startswith`, `str.split`,
`str.join`, `str.replace`, slicing) are modelled over `List Char`, which
matches Python's code-point view of `str`.
-/

/-- Model of Python `str.startswith` on character lists: `charsStartWith p s`
is true when `p` is an initial segment of `s`. -/
def charsStartWith : List Char → List Char → Bool
  | [], _ => true
  | _ :: _, [] => false
  | p :: ps, c :: cs => p == c && charsStartWith ps cs

/-- Model of Python `s.startswith(pre)`. -/
def pyStartswith (s pre : String) : Bool :=
  charsStartWith pre.data s.data

/-- Model of Python `str.lower` (the repository only lower-cases ASCII
labels and titles, where `Char.toLower` agrees with Python). -/
def pyLower (s : String) : String :=
  String.mk (s.data.map Char.toLower)

/-- Model of Python slicing `s[:n]`. -/
def pyTake (s : String) (n : Nat) : String :=
  String.mk (s.data.take n)

/-- Worker for `pyReplace` for a non-empty pattern.  The fuel argument is
structural and, when at least the length of the scanned list, never runs
out, since each step consumes at least one character. -/
def replaceAux (pat repl : List Char) : Nat → List Char → List Char
  | _, [] => []
  | 0, l => l
  | fuel + 1, c :: cs =>
      if charsStartWith pat (c :: cs) then
        repl ++ replaceAux pat repl fuel ((c :: cs).drop pat.length)
      else
        c :: replaceAux pat repl fuel cs

/-- Model of Python `s.replace(pat, repl)` (replaces every non-overlapping
occurrence, left to right; the empty pattern leaves `s` unchanged in the
repository's uses, which never pass an empty pattern). -/
def pyReplace (s pat repl : String) : String :=
  match pat.data with
  | [] => s
  | _ :: _ => String.mk (replaceAux pat.data repl.data s.data.length s.data)

/-- Splitting a character list on a separator, keeping empty pieces, as
Python `str.split(sep)` does. -/
def splitOnChar (sep : Char) : List Char → List (List Char)
  | [] => [[]]
  | c :: cs =>
      if c == sep then [] :: splitOnChar sep cs
      else
        match splitOnChar sep cs with
        | [] => [[c]]
        | l :: ls => (c :: l) :: ls

/-- Model of Python `s.split('\n')`. -/
def pySplitNl (s : String) : List String :=
  (splitOnChar '\n' s.data).map String.mk

/-- Model of Python `'\n'.join(parts)`. -/
def joinLines : List String → String
  | [] => ""
  | [s] => s
  | s :: rest => s ++ "\n" ++ joinLines rest

/-- Shape check for the trailing UTC-offset part of an ISO-8601 timestamp,
for the model of `datetime.fromisoformat`. -/
def isTzOffset : List Char → Bool
  | s :: h1 :: h2 :: ':' :: m1 :: m2 :: [] =>
      (s == '+' || s == '-') && h1.isDigit && h2.isDigit && m1.isDigit && m2.isDigit
  | _ => false

/-- Shape check for the time-of-day part of an ISO-8601 timestamp. -/
def isIsoTimePart : List Char → Bool
  | sep :: h1 :: h2 :: ':' :: n1 :: n2 :: ':' :: s1 :: s2 :: rest =>
      (sep == 'T' || sep == ' ') && h1.isDigit && h2.isDigit && n1.isDigit &&
        n2.isDigit && s1.isDigit && s2.isDigit && (rest.isEmpty || isTzOffset rest)
  | _ => false

/-- Shape check for an ISO-8601 timestamp `YYYY-MM-DD[THH:MM:SS[+HH:MM]]`.
This models the grammar accepted by Python `datetime.fromisoformat` on the
timestamps the GitHub API serves (it abstracts the full CPython grammar,
keeping the property that the accepted strings open with the ten-character
date). -/
def isIsoDatetime (s : String) : Bool :=
  match s.data with
  | y1 :: y2 :: y3 :: y4 :: '-' :: m1 :: m2 :: '-' :: d1 :: d2 :: rest =>
      y1.isDigit && y2.isDigit && y3.isDigit && y4.isDigit && m1.isDigit &&
        m2.isDigit && d1.isDigit && d2.isDigit && (rest.isEmpty || isIsoTimePart rest)
  | _ => false

/-- Model of `datetime.fromisoformat(s).strftime("%Y-%m-%d")`: `none` when
`fromisoformat` raises `ValueError`, otherwise the date-only rendering,
which is the first ten characters of the accepted string. -/
def fromisoformatDate (s : String) : Option String :=
  if isIsoDatetime s then some (pyTake s 10) else none

/-! ## HTTP outcome model -/

/-- Outcome of one `requests.get` call: either a response carrying a status
code and the decoded payload, or a transport-level exception
(`requests.exceptions.RequestException`) with its message. -/
inductive HttpOutcome (α : Type) where
  | success (status : Nat) (data : α)
  | netError (msg : String)
deriving DecidableEq

/-- The fields of the release JSON object that `github_tool.py` reads;
`none` models an absent key (so `data.get(k, d)` is `Option.getD`). -/
structure ReleaseJson where
  tag_name : Option String
  published_at : Option String
  html_url : Option String
  body : Option String
deriving DecidableEq

/-- The `pull_request` sub-object of an issue item; `merged_at` is `none`
when the key is absent or JSON `null`. -/
structure PullRequestField where
  merged_at : Option String
deriving DecidableEq

/-- The fields of one item of the issues-endpoint response that
`_fetch_merged_prs` reads; `pull_request = none` models an item without the
`pull_request` key (an ordinary issue). -/
structure IssueItem where
  number : Nat
  title : String
  labels : List String
  html_url : String
  pull_request : Option PullRequestField
deriving DecidableEq

/-- The record `_fetch_merged_prs` builds for each kept pull request. -/
structure PR where
  number : Nat
  title : String
  labels : List String
  url : String
deriving DecidableEq

/-! ## Tool 1: `check_latest_release` (github_tool.py lines 24-62) -/

/-- Embedding of `check_latest_release`.  The whole body sits in a `try`
that catches only `requests.exceptions.RequestException`, so a transport
error becomes the `TOOL_ERROR:` string; a publish timestamp rejected by
`datetime.fromisoformat` raises `ValueError`, which is not caught
(`Except.error`). -/
def check_latest_release (org_name repo_name : String)
    (out : HttpOutcome ReleaseJson) : Except String String :=
  match out with
  | .netError e => .ok ("TOOL_ERROR: Network or connection issue: " ++ e)
  | .success code data =>
    if code = 404 then
      .ok ("ERROR: Repository " ++ org_name ++ "/" ++ repo_name ++
        " not found or has no releases.")
    else if code = 403 then
      .ok "ERROR: GitHub API failed with status code 403. Check GITHUB_TOKEN and rate limit."
    else if code ≠ 200 then
      .ok ("ERROR: GitHub API failed with status code " ++ toString code ++ ".")
    else
      let version := data.tag_name.getD "N/A"
      let published_at_str := data.published_at.getD "N/A"
      let release_url := data.html_url.getD "N/A"
      let datePart : Except String String :=
        if published_at_str ≠ "N/A" then
          match fromisoformatDate (pyReplace published_at_str "Z" "+00:00") with
          | some d => .ok d
          | none => .error ("ValueError: Invalid isoformat string: " ++ published_at_str)
        else
          .ok "N/A"
      match datePart with
      | .error e => .error e
      | .ok published_date =>
        let body_snippet := pyReplace (pyTake (data.body.getD "") 100) "\n" " " ++ "..."
        .ok ("SUCCESS: **" ++ org_name ++ "/" ++ repo_name ++
          "** Latest Release: **" ++ version ++ "** | " ++
          "Published: " ++ published_date ++ ". " ++
          "Release URL: " ++ release_url ++ ". " ++
          "Notes Snippet: \"" ++ body_snippet ++ "\"")

/-! ## Tool 2: `get_dependency_file` (github_tool.py lines 66-96) -/

/-- Embedding of `get_dependency_file`.  Its `try` block ends with a
catch-all `except Exception`, so every failure (including transport
errors) is converted to a string: the embedding is total. -/
def get_dependency_file (org_name repo_name file_path : String)
    (out : HttpOutcome String) : String :=
  match out with
  | .netError e => "TOOL_ERROR: Could not process file content. Error: " ++ e
  | .success code content =>
    if code = 404 then
      "ERROR: File '" ++ file_path ++ "' not found in " ++ org_name ++ "/" ++
        repo_name ++ "."
    else if code = 403 then
      "ERROR: GitHub API failed with status code 403. Check GITHUB_TOKEN and rate limit."
    else if code ≠ 200 then
      "ERROR: GitHub API failed with status code " ++ toString code ++ "."
    else
      let lines := pySplitNl content
      "SUCCESS: Content of `" ++ file_path ++ "`:\n```\n" ++
        joinLines (lines.take 10) ++ "\n```"

/-! ## Tool 3: `get_release_prs` (github_tool.py lines 102-199) -/

/-- The query parameters `_fetch_merged_prs` sends to the issues endpoint
(github_tool.py lines 111-117). -/
def issuesParams (published_date : String) : List (String × String) :=
  [("state", "closed"), ("sort", "updated"), ("direction", "desc"),
   ("since", published_date), ("per_page", "50")]

/-- The eligibility test of github_tool.py line 128: the item carries a
`pull_request` key and its `merged_at` value is truthy (present and not
the empty string). -/
def isEligiblePR (item : IssueItem) : Bool :=
  match item.pull_request with
  | some pf =>
    match pf.merged_at with
    | some m => m ≠ ""
    | none => false
  | none => false

/-- The record built for each kept item (github_tool.py lines 129-134). -/
def toPR (item : IssueItem) : PR :=
  { number := item.number, title := item.title, labels := item.labels,
    url := item.html_url }

/-- Embedding of `_fetch_merged_prs`.  The environment `env` maps the query
parameters actually sent to the outcome of the HTTP call.  The function
itself has no exception handler, so a transport error propagates
(`Except.error`); a non-200 response yields the empty list. -/
def _fetch_merged_prs (published_date : String)
    (env : List (String × String) → HttpOutcome (List IssueItem)) :
    Except String (List PR) :=
  match env (issuesParams published_date) with
  | .netError e => .error e
  | .success code items =>
    if code ≠ 200 then .ok []
    else .ok ((items.filter isEligiblePR).map toPR)

/-- Keyword list of github_tool.py line 174. -/
def BUG_KEYWORDS : List String := ["bug", "fix", "defect", "hotfix"]

/-- Keyword list of github_tool.py line 175. -/
def ENHANCEMENT_KEYWORDS : List String := ["feature", "enhancement", "new", "feat"]

/-- The `"#<number>: <title>"` serialization of github_tool.py lines
182-186 (original-case title). -/
def entryOf (pr : PR) : String :=
  "#" ++ toString pr.number ++ ": " ++ pr.title

/-- One iteration of the categorization loop (github_tool.py lines
177-186) acting on the three buckets. -/
def categorizeStep (acc : List String × List String × List String) (pr : PR) :
    List String × List String × List String :=
  let title_lower := pyLower pr.title
  let labels_lower := pr.labels.map pyLower
  if BUG_KEYWORDS.any (fun kw => labels_lower.contains kw) ||
      pyStartswith title_lower "fix" then
    (acc.1 ++ [entryOf pr], acc.2.1, acc.2.2)
  else if ENHANCEMENT_KEYWORDS.any (fun kw => labels_lower.contains kw) ||
      pyStartswith title_lower "feat" then
    (acc.1, acc.2.1 ++ [entryOf pr], acc.2.2)
  else
    (acc.1, acc.2.1, acc.2.2 ++ [entryOf pr])

/-- The categorization loop of github_tool.py lines 168-186: buckets
"Bug Fixes", "Enhancements/Features", "Other Changes" in order. -/
def categorize (prs : List PR) : List String × List String × List String :=
  prs.foldl categorizeStep ([], [], [])

/-- The label half of rule 1 of the categorizer: some lower-cased label is
exactly one of the bug keywords. -/
def labelsMatchBug (pr : PR) : Bool :=
  BUG_KEYWORDS.any (fun kw => (pr.labels.map pyLower).contains kw)

/-- The label half of rule 2: some lower-cased label is exactly one of the
enhancement keywords. -/
def labelsMatchEnh (pr : PR) : Bool :=
  ENHANCEMENT_KEYWORDS.any (fun kw => (pr.labels.map pyLower).contains kw)

/-- Rule 1 of the categorizer (github_tool.py line 181). -/
def bugMatch (pr : PR) : Bool :=
  labelsMatchBug pr || pyStartswith (pyLower pr.title) "fix"

/-- Rule 2 of the categorizer (github_tool.py line 183). -/
def enhMatch (pr : PR) : Bool :=
  labelsMatchEnh pr || pyStartswith (pyLower pr.title) "feat"

/-- One bucket section of the report (github_tool.py lines 194-197): a
heading line followed by the entries, omitted entirely when empty. -/
def sectionFor (category : String) (items : List String) : List String :=
  if items.isEmpty then []
  else ("\n--- " ++ category ++ " (" ++ toString items.length ++ ") ---") :: items

/-- The report of github_tool.py lines 188-199 for a non-empty PR list. -/
def buildReport (org_name repo_name tag_name : String) (all_prs : List PR) : String :=
  let s := categorize all_prs
  joinLines
    ((["SUCCESS: Analysis for " ++ org_name ++ "/" ++ repo_name ++ " release `" ++
        tag_name ++ "`:",
      "Total Relevant PRs Found: " ++ toString all_prs.length] ++
      sectionFor "Bug Fixes" s.1) ++
      sectionFor "Enhancements/Features" s.2.1 ++
      sectionFor "Other Changes" s.2.2)

/-- Embedding of `get_release_prs`.  `relOut` is the outcome of the
release-by-tag call of line 147, which sits outside every `try` block, so
its transport exception propagates (`Except.error`).  `now` models
`datetime.now().isoformat()`, the default taken when the release JSON has
no `published_at`.  Only the `_fetch_merged_prs` call of line 160 is
guarded, by `except Exception`. -/
def get_release_prs (org_name repo_name tag_name now : String)
    (relOut : HttpOutcome ReleaseJson)
    (issuesEnv : List (String × String) → HttpOutcome (List IssueItem)) :
    Except String String :=
  match relOut with
  | .netError e => .error e
  | .success code relData =>
    if code ≠ 200 then
      .ok ("ERROR: Could not find release tag `" ++ tag_name ++
        "` for categorization. Status: " ++ toString code ++ ".")
    else
      let published_date_str := relData.published_at.getD now
      match _fetch_merged_prs published_date_str issuesEnv with
      | .error e => .ok ("TOOL_ERROR: Failed to fetch PRs for release. Error: " ++ e)
      | .ok all_prs =>
        if all_prs.isEmpty then
          .ok ("SUCCESS: Found no recently merged Pull Requests for release `" ++
            tag_name ++ "`.")
        else
          .ok (buildReport org_name repo_name tag_name all_prs)

/-! ## Orchestration loop (app.py lines 15-19 and 113-153) -/

/-- A tool invocation request produced by the model session; the argument
dictionary is abstracted into the tool runner. -/
structure FunctionCall where
  name : String
deriving DecidableEq

/-- One entry of the batched `tool_results` list of app.py lines 121-144:
either a function response carrying the tool's string output or the
error-tagged response built for an unregistered name. -/
inductive ToolResult where
  | output (name : String) (payload : String)
  | err (name : String) (msg : String)
deriving DecidableEq

/-- A model-session response: pending tool invocation requests plus the
final text (consulted only when no requests remain). -/
structure ModelResponse where
  function_calls : List FunctionCall
  text : String

/-- The registered tool names of the `AVAILABLE_TOOLS` dictionary
(app.py lines 15-19). -/
def AVAILABLE_TOOLS : List String :=
  ["check_latest_release", "get_dependency_file", "get_release_prs"]

/-- Embedding of the `for function_call in response.function_calls` loop of
app.py lines 122-144.  `runTool` is the execution of the registered Python
callable with the request's arguments; its `Except.error` models a raised
exception, which aborts the whole round (no result list is produced). -/
def execRound (runTool : FunctionCall → Except String String) :
    List FunctionCall → Except String (List ToolResult)
  | [] => .ok []
  | c :: cs =>
    if AVAILABLE_TOOLS.contains c.name then
      match runTool c with
      | .ok out =>
        match execRound runTool cs with
        | .ok rs => .ok (ToolResult.output c.name out :: rs)
        | .error e => .error e
      | .error e => .error e
    else
      match execRound runTool cs with
      | .ok rs =>
        .ok (ToolResult.err c.name ("Function " ++ c.name ++ " not found.") :: rs)
      | .error e => .error e

/-- Embedding of the `while response.function_calls` loop of
`handle_tool_call` (app.py lines 118-148).  `send` models
`chat_session.send_message` on the batched results.  The Python loop has no
round bound, so the embedding carries explicit fuel; `ok none` means the
fuel ran out with the loop still running, and `ok (some r)` is the final
response returned to the caller. -/
def handle_tool_call (send : List ToolResult → ModelResponse)
    (runTool : FunctionCall → Except String String) :
    Nat → ModelResponse → Except String (Option ModelResponse)
  | 0, r => if r.function_calls.isEmpty then .ok (some r) else .ok none
  | fuel + 1, r =>
    if r.function_calls.isEmpty then .ok (some r)
    else
      match execRound runTool r.function_calls with
      | .ok results => handle_tool_call send runTool fuel (send results)
      | .error e => .error e


/-! ## Specification-side definitions and concrete fixtures

`specReportTotalFromBuckets` and `specFirstTenLines` are written from the
words of the specification (not the source) so the code's output can be
compared against them.  The remaining definitions are concrete inputs used
by witnesses and counterexamples. -/

/-- Specification-side rendering of the PR report in which the reported
total is literally the sum of the three buckets' sizes ("the reported
totalFound equals the sum of the three buckets' sizes"). -/
def specReportTotalFromBuckets (org_name repo_name tag_name : String) (all_prs : List PR) : String :=
  let s := categorize all_prs
  joinLines
    ((["SUCCESS: Analysis for " ++ org_name ++ "/" ++ repo_name ++ " release `" ++
        tag_name ++ "`:",
      "Total Relevant PRs Found: " ++ toString (s.1.length + s.2.1.length + s.2.2.length)] ++
      sectionFor "Bug Fixes" s.1) ++
      sectionFor "Enhancements/Features" s.2.1 ++
      sectionFor "Other Changes" s.2.2)

/-- Specification-side rendering of "the first 10 lines of the content,
joined back with line breaks". -/
def specFirstTenLines (content : String) : String :=
  joinLines ((pySplitNl content).take 10)

/-- The release object of specification Scenario 1. -/
def scenario1Release : ReleaseJson :=
  { tag_name := some "v1.16.0", published_at := some "2024-04-10T12:00:00Z",
    html_url := some "https://...", body := some "Improvements..." }

/-- A PR labelled with both a bug keyword and an enhancement keyword
(upper-cased to exercise the lower-casing step). -/
def prBugFeature : PR :=
  { number := 9, title := "Overhaul pipeline", labels := ["Bug", "Feature"], url := "u9" }

/-- A merged pull-request item of the issues endpoint. -/
def c5item : IssueItem :=
  { number := 41, title := "Fix retry loop", labels := ["bug"], html_url := "u41",
    pull_request := some { merged_at := some "2024-04-12T08:00:00Z" } }

/-- An issues-endpoint environment answering every query with one merged PR. -/
def c5env : List (String × String) → HttpOutcome (List IssueItem) :=
  fun _ => HttpOutcome.success 200 [c5item]

/-- An issues-endpoint environment failing every query with status 500. -/
def c9env : List (String × String) → HttpOutcome (List IssueItem) :=
  fun _ => HttpOutcome.success 500 []

/-- A release object for the empty-PR-list scenario. -/
def c9rel : ReleaseJson :=
  { tag_name := some "v2.9.0", published_at := some "2024-04-01T00:00:00Z",
    html_url := some "h", body := some "b" }

/-- A tool runner whose every execution returns normally. -/
def c6RunTool : FunctionCall → Except String String :=
  fun c => Except.ok ("SUCCESS: ran " ++ c.name)

/-- A tool runner executing the registered `get_release_prs` under an
environment whose release-tag HTTP call raises a transport exception. -/
def c6BadRunTool : FunctionCall → Except String String :=
  fun c =>
    if c.name = "get_release_prs" then
      get_release_prs "argoproj" "argo-cd" "v2.9.0" "2024-01-01T00:00:00"
        (HttpOutcome.netError "Connection refused") (fun _ => HttpOutcome.success 200 [])
    else Except.ok "SUCCESS: ok"

/-- A dependency-file content of exactly twenty lines. -/
def content20 : String :=
  "l1\nl2\nl3\nl4\nl5\nl6\nl7\nl8\nl9\nl10\nl11\nl12\nl13\nl14\nl15\nl16\nl17\nl18\nl19\nl20"

/-! ## Helper lemmas on the string primitives -/

theorem charsStartWith_append (p l t : List Char) (h : charsStartWith p l = true) :
    charsStartWith p (l ++ t) = true := by
  induction p generalizing l with
  | nil => simp [charsStartWith]
  | cons x xs ih =>
    cases l with
    | nil => simp [charsStartWith] at h
    | cons c cs =>
      simp only [charsStartWith, List.cons_append, Bool.and_eq_true] at h ⊢
      exact ⟨h.1, ih cs h.2⟩

theorem head_of_charsStartWith (p : Char) (ps l : List Char)
    (h : charsStartWith (p :: ps) l = true) : ∃ cs, l = p :: cs := by
  cases l with
  | nil => simp [charsStartWith] at h
  | cons c cs =>
    simp only [charsStartWith, Bool.and_eq_true, beq_iff_eq] at h
    exact ⟨cs, by rw [h.1]⟩

theorem charsStartWith_head_ne (p q : Char) (ps cs : List Char) (h : p ≠ q) :
    charsStartWith (p :: ps) (q :: cs) = false := by
  simp [charsStartWith, h]

/-- Lifting a status-marker check over string concatenation: a marker that
opens the left part opens the concatenation. -/
theorem startTag_append (p a b : String) (h : charsStartWith p.data a.data = true) :
    charsStartWith p.data (a ++ b).data = true := by
  rw [String.data_append]
  exact charsStartWith_append _ _ _ h

/-- The result string opens with exactly one of the three status markers of
the tool contract: `SUCCESS:`, `ERROR:`, `TOOL_ERROR:`. -/
def exactlyOneStatusTag (s : String) : Prop :=
  (charsStartWith "SUCCESS:".data s.data = true ∧
    charsStartWith "ERROR:".data s.data = false ∧
    charsStartWith "TOOL_ERROR:".data s.data = false) ∨
  (charsStartWith "ERROR:".data s.data = true ∧
    charsStartWith "SUCCESS:".data s.data = false ∧
    charsStartWith "TOOL_ERROR:".data s.data = false) ∨
  (charsStartWith "TOOL_ERROR:".data s.data = true ∧
    charsStartWith "SUCCESS:".data s.data = false ∧
    charsStartWith "ERROR:".data s.data = false)

theorem tag_success (s : String)
    (h : charsStartWith "SUCCESS:".data s.data = true) : exactlyOneStatusTag s := by
  obtain ⟨cs, hcs⟩ := head_of_charsStartWith 'S' "UCCESS:".data s.data h
  refine Or.inl ⟨h, ?_, ?_⟩
  · rw [hcs, show ("ERROR:".data) = 'E' :: "RROR:".data from rfl]
    exact charsStartWith_head_ne _ _ _ _ (by decide)
  · rw [hcs, show ("TOOL_ERROR:".data) = 'T' :: "OOL_ERROR:".data from rfl]
    exact charsStartWith_head_ne _ _ _ _ (by decide)

theorem tag_error (s : String)
    (h : charsStartWith "ERROR:".data s.data = true) : exactlyOneStatusTag s := by
  obtain ⟨cs, hcs⟩ := head_of_charsStartWith 'E' "RROR:".data s.data h
  refine Or.inr (Or.inl ⟨h, ?_, ?_⟩)
  · rw [hcs, show ("SUCCESS:".data) = 'S' :: "UCCESS:".data from rfl]
    exact charsStartWith_head_ne _ _ _ _ (by decide)
  · rw [hcs, show ("TOOL_ERROR:".data) = 'T' :: "OOL_ERROR:".data from rfl]
    exact charsStartWith_head_ne _ _ _ _ (by decide)

theorem tag_tool_error (s : String)
    (h : charsStartWith "TOOL_ERROR:".data s.data = true) : exactlyOneStatusTag s := by
  obtain ⟨cs, hcs⟩ := head_of_charsStartWith 'T' "OOL_ERROR:".data s.data h
  refine Or.inr (Or.inr ⟨h, ?_, ?_⟩)
  · rw [hcs, show ("SUCCESS:".data) = 'S' :: "UCCESS:".data from rfl]
    exact charsStartWith_head_ne _ _ _ _ (by decide)
  · rw [hcs, show ("ERROR:".data) = 'E' :: "RROR:".data from rfl]
    exact charsStartWith_head_ne _ _ _ _ (by decide)

theorem joinLines_cons_cons (a b : String) (l : List String) :
    joinLines (a :: b :: l) = a ++ "\n" ++ joinLines (b :: l) := rfl

/-! ## Helper lemmas on the categorizer -/

theorem categorizeStep_eq (acc : List String × List String × List String) (pr : PR) :
    categorizeStep acc pr =
      if bugMatch pr then (acc.1 ++ [entryOf pr], acc.2.1, acc.2.2)
      else if enhMatch pr then (acc.1, acc.2.1 ++ [entryOf pr], acc.2.2)
      else (acc.1, acc.2.1, acc.2.2 ++ [entryOf pr]) := rfl

theorem categorize_go (prs : List PR) (b f o : List String) :
    prs.foldl categorizeStep (b, f, o) =
      (b ++ (prs.filter bugMatch).map entryOf,
       f ++ (prs.filter (fun pr => !bugMatch pr && enhMatch pr)).map entryOf,
       o ++ (prs.filter (fun pr => !bugMatch pr && !enhMatch pr)).map entryOf) := by
  induction prs generalizing b f o with
  | nil => simp
  | cons pr rest ih =>
    rw [List.foldl_cons, categorizeStep_eq]
    by_cases hb : bugMatch pr
    · simp only [hb, if_true, ih, List.filter_cons, Bool.not_true, Bool.false_and,
        if_false, List.map_cons, List.append_assoc, List.singleton_append]
      simp [hb]
    · by_cases he : enhMatch pr
      · simp only [hb, he, if_false, if_true, ih, List.filter_cons]
        simp [hb, he, List.append_assoc]
      · simp only [hb, he, if_false, ih, List.filter_cons]
        simp [hb, he, List.append_assoc]

theorem categorize_eq (prs : List PR) :
    categorize prs =
      ((prs.filter bugMatch).map entryOf,
       (prs.filter (fun pr => !bugMatch pr && enhMatch pr)).map entryOf,
       (prs.filter (fun pr => !bugMatch pr && !enhMatch pr)).map entryOf) := by
  simpa [categorize] using categorize_go prs [] [] []

theorem length_filter_three (prs : List PR) :
    (prs.filter bugMatch).length +
      (prs.filter (fun pr => !bugMatch pr && enhMatch pr)).length +
      (prs.filter (fun pr => !bugMatch pr && !enhMatch pr)).length = prs.length := by
  induction prs with
  | nil => rfl
  | cons pr rest ih =>
    by_cases hb : bugMatch pr <;> by_cases he : enhMatch pr <;>
      simp [List.filter_cons, hb, he] <;> omega

theorem buildReport_tag (org_name repo_name tag_name : String) (prs : List PR) :
    charsStartWith "SUCCESS:".data (buildReport org_name repo_name tag_name prs).data = true := by
  unfold buildReport
  simp only [List.cons_append, List.nil_append]
  rw [joinLines_cons_cons]
  repeat apply startTag_append
  decide

/-! ## Helper lemmas on eligibility and the categorizer keywords -/

theorem eligible_fields (item : IssueItem) (h : isEligiblePR item = true) :
    ∃ pf, item.pull_request = some pf ∧ ∃ m, pf.merged_at = some m ∧ m ≠ "" := by
  rcases item with ⟨num, ttl, lbls, hurl, pq⟩
  cases pq with
  | none => simp [isEligiblePR] at h
  | some pf =>
    cases hm : pf.merged_at with
    | none => simp [isEligiblePR, hm] at h
    | some m =>
      refine ⟨pf, rfl, m, hm, ?_⟩
      simp [isEligiblePR, hm] at h
      exact h

theorem labelsMatchBug_singleton (n : Nat) (t u lbl : String) :
    labelsMatchBug { number := n, title := t, labels := [lbl], url := u } = true ↔
      pyLower lbl ∈ BUG_KEYWORDS := by
  simp [labelsMatchBug, BUG_KEYWORDS, List.contains, List.elem_iff]
  tauto

theorem labelsMatchEnh_singleton (n : Nat) (t u lbl : String) :
    labelsMatchEnh { number := n, title := t, labels := [lbl], url := u } = true ↔
      pyLower lbl ∈ ENHANCEMENT_KEYWORDS := by
  simp [labelsMatchEnh, ENHANCEMENT_KEYWORDS, List.contains, List.elem_iff]
  tauto

/-! ## Claim theorems -/

/-- C1 (code bug evidence): the release-by-tag HTTP call of `get_release_prs`
(github_tool.py line 147) sits outside every `try` block, so a
transport-level exception raised there propagates past the tool boundary
instead of being converted into a prefixed string result, contradicting the
specified propagation policy.  Evaluated at the failing input. -/
theorem get_release_prs_transport_exception_escapes :
    get_release_prs "argoproj" "argo-cd" "v2.9.0" "2024-01-01T00:00:00"
      (HttpOutcome.netError "Connection refused")
      (fun _ => HttpOutcome.success 200 []) = Except.error "Connection refused" := rfl

/-- C2: for every PR list, categorization is total and the buckets are
disjoint: the three buckets are exactly the partition of the list by rule 1
(`bugMatch`), rule 2 minus rule 1, and the complement, in order; and a PR
whose labels match both the bug and the enhancement keyword set satisfies
rule 1 and lands in the "Bug Fixes" bucket (rule 1 takes precedence). -/
theorem categorize_partition_precedence (prs : List PR) :
    categorize prs =
      ((prs.filter bugMatch).map entryOf,
       (prs.filter (fun pr => !bugMatch pr && enhMatch pr)).map entryOf,
       (prs.filter (fun pr => !bugMatch pr && !enhMatch pr)).map entryOf) ∧
    ∀ pr ∈ prs, labelsMatchBug pr = true → labelsMatchEnh pr = true →
      entryOf pr ∈ (categorize prs).1 := by
  refine ⟨categorize_eq prs, ?_⟩
  intro pr hpr hb _he
  rw [categorize_eq]
  exact List.mem_map_of_mem _ (List.mem_filter.mpr ⟨hpr, by simp [bugMatch, hb]⟩)

theorem categorize_partition_precedence_witness :
    entryOf prBugFeature ∈ (categorize [prBugFeature]).1 :=
  (categorize_partition_precedence [prBugFeature]).2 prBugFeature (by simp) (by decide) (by decide)

/-- C3 counterexample: on a transport-level exception during the
release-tag lookup, `get_release_prs` raises instead of returning any
string at all, so "for every outcome the tool returns a string with a
status prefix" fails as stated. -/
theorem get_release_prs_no_string_on_transport_error :
    (get_release_prs "hashicorp" "vault" "v1.16.0" "2024-01-01T00:00:00"
      (HttpOutcome.netError "Max retries exceeded")
      (fun _ => HttpOutcome.success 200 [])).isOk = false := rfl

/-- C3 (amended): every string result the three tools return opens with
exactly one of the status markers `SUCCESS:`, `ERROR:`, `TOOL_ERROR:`
(the raising outcomes return no string and are outside the implication). -/
theorem tool_results_status_tag
    (org repo path tag now : String) (relOut : HttpOutcome ReleaseJson)
    (fileOut : HttpOutcome String)
    (issuesEnv : List (String × String) → HttpOutcome (List IssueItem))
    (s1 s2 s3 : String) :
    (check_latest_release org repo relOut = Except.ok s1 → exactlyOneStatusTag s1) ∧
    (get_dependency_file org repo path fileOut = s2 → exactlyOneStatusTag s2) ∧
    (get_release_prs org repo tag now relOut issuesEnv = Except.ok s3 → exactlyOneStatusTag s3) := by
  refine ⟨?_, ?_, ?_⟩
  · cases relOut with
    | netError e =>
      intro h
      rw [check_latest_release, Except.ok.injEq] at h
      subst h
      apply tag_tool_error
      repeat apply startTag_append
      decide
    | success code data =>
      by_cases h404 : code = 404
      · intro h
        simp only [check_latest_release, h404, if_true, Except.ok.injEq] at h
        subst h
        apply tag_error
        repeat apply startTag_append
        decide
      · by_cases h403 : code = 403
        · subst h403
          intro h
          simp only [check_latest_release] at h
          rw [if_neg (by decide), if_pos trivial, Except.ok.injEq] at h
          subst h
          apply tag_error
          decide
        · by_cases h200 : code = 200
          · subst h200
            intro h
            simp only [check_latest_release] at h
            rw [if_neg (by decide), if_neg (by decide), if_neg (by decide)] at h
            by_cases hp : data.published_at.getD "N/A" = "N/A"
            · rw [if_neg (by simp [hp])] at h
              simp only [Except.ok.injEq] at h
              subst h
              apply tag_success
              repeat apply startTag_append
              decide
            · rw [if_pos hp] at h
              cases hio : fromisoformatDate (pyReplace (data.published_at.getD "N/A") "Z" "+00:00") with
              | none =>
                rw [hio] at h
                cases h
              | some d =>
                rw [hio] at h
                simp only [Except.ok.injEq] at h
                subst h
                apply tag_success
                repeat apply startTag_append
                decide
          · intro h
            simp only [check_latest_release, if_neg h404, if_neg h403, if_pos h200,
              Except.ok.injEq] at h
            subst h
            apply tag_error
            repeat apply startTag_append
            decide
  · cases fileOut with
    | netError e =>
      intro h
      rw [get_dependency_file] at h
      subst h
      apply tag_tool_error
      repeat apply startTag_append
      decide
    | success code content =>
      by_cases h404 : code = 404
      · intro h
        simp only [get_dependency_file, h404, if_true] at h
        subst h
        apply tag_error
        repeat apply startTag_append
        decide
      · by_cases h403 : code = 403
        · intro h
          simp only [get_dependency_file, if_neg h404, if_pos h403] at h
          subst h
          apply tag_error
          decide
        · by_cases h200 : code = 200
          · intro h
            simp only [get_dependency_file, if_neg h404, if_neg h403,
              if_neg (by simp [h200] : ¬ code ≠ 200)] at h
            subst h
            apply tag_success
            repeat apply startTag_append
            decide
          · intro h
            simp only [get_dependency_file, if_neg h404, if_neg h403, if_pos h200] at h
            subst h
            apply tag_error
            repeat apply startTag_append
            decide
  · cases relOut with
    | netError e => intro h; cases h
    | success code data =>
      by_cases h200 : code = 200
      · subst h200
        intro h
        simp only [get_release_prs] at h
        rw [if_neg (by decide)] at h
        cases hf : _fetch_merged_prs (data.published_at.getD now) issuesEnv with
        | error e =>
          simp only [hf, Except.ok.injEq] at h
          subst h
          apply tag_tool_error
          repeat apply startTag_append
          decide
        | ok all_prs =>
          cases hempty : all_prs.isEmpty with
          | true =>
            simp only [hf, hempty] at h
            rw [if_pos trivial, Except.ok.injEq] at h
            subst h
            apply tag_success
            repeat apply startTag_append
            decide
          | false =>
            simp only [hf, hempty] at h
            rw [if_neg (by decide), Except.ok.injEq] at h
            subst h
            exact tag_success _ (buildReport_tag org repo tag all_prs)
      · intro h
        simp only [get_release_prs, if_pos h200, Except.ok.injEq] at h
        subst h
        apply tag_error
        repeat apply startTag_append
        decide

theorem tool_results_status_tag_witness :
    exactlyOneStatusTag "SUCCESS: **hashicorp/vault** Latest Release: **v1.16.0** | Published: 2024-04-10. Release URL: https://.... Notes Snippet: \"Improvements......\"" ∧
    exactlyOneStatusTag "SUCCESS: Content of `go.mod`:\n```\nmodule x\n```" ∧
    exactlyOneStatusTag "ERROR: Could not find release tag `v9.9.9` for categorization. Status: 404." :=
  ⟨(tool_results_status_tag "hashicorp" "vault" "go.mod" "v9.9.9" "2024-01-01T00:00:00"
      (HttpOutcome.success 200 scenario1Release) (HttpOutcome.success 200 "module x")
      (fun _ => HttpOutcome.success 200 [])
      "SUCCESS: **hashicorp/vault** Latest Release: **v1.16.0** | Published: 2024-04-10. Release URL: https://.... Notes Snippet: \"Improvements......\"" "" "").1 rfl,
   (tool_results_status_tag "hashicorp" "vault" "go.mod" "v9.9.9" "2024-01-01T00:00:00"
      (HttpOutcome.success 200 scenario1Release) (HttpOutcome.success 200 "module x")
      (fun _ => HttpOutcome.success 200 [])
      "" "SUCCESS: Content of `go.mod`:\n```\nmodule x\n```" "").2.1 rfl,
   (tool_results_status_tag "hashicorp" "vault" "go.mod" "v9.9.9" "2024-01-01T00:00:00"
      (HttpOutcome.success 404 scenario1Release) (HttpOutcome.success 200 "module x")
      (fun _ => HttpOutcome.success 200 [])
      "" "" "ERROR: Could not find release tag `v9.9.9` for categorization. Status: 404.").2.2 rfl⟩

/-- C4 counterexample: on the Scenario 1 release object the code does not
produce the string claimed by the specification, because the code appends
the ellipsis marker to a body that already ends in an ellipsis. -/
theorem check_latest_release_scenario1_cex :
    ¬ (check_latest_release "hashicorp" "vault" (HttpOutcome.success 200 scenario1Release) =
      Except.ok "SUCCESS: **hashicorp/vault** Latest Release: **v1.16.0** | Published: 2024-04-10. Release URL: https://.... Notes Snippet: \"Improvements...\"") := by
  intro h
  rw [show check_latest_release "hashicorp" "vault" (HttpOutcome.success 200 scenario1Release) =
      Except.ok "SUCCESS: **hashicorp/vault** Latest Release: **v1.16.0** | Published: 2024-04-10. Release URL: https://.... Notes Snippet: \"Improvements......\"" from rfl] at h
  exact absurd (Except.ok.inj h) (by decide)

/-- C4 (amended): on the Scenario 1 release object, `check_latest_release`
renders the publish timestamp date-only and truncates the body to 100
characters with newlines collapsed and an ellipsis marker appended, giving
a notes snippet of `Improvements......` (the marker is appended
unconditionally, also to bodies shorter than 100 characters). -/
theorem check_latest_release_scenario1_amended :
    check_latest_release "hashicorp" "vault" (HttpOutcome.success 200 scenario1Release) =
      Except.ok "SUCCESS: **hashicorp/vault** Latest Release: **v1.16.0** | Published: 2024-04-10. Release URL: https://.... Notes Snippet: \"Improvements......\"" := rfl

/-- C5: `_fetch_merged_prs` returns the empty list (never an error) on any
non-200 response; on a 200 response whose item list respects the requested
page size it returns at most 50 records, each derived from an item that
carries a `pull_request` marker and a present `merged_at`; and the query it
sends carries `per_page = 50` (single page). -/
theorem fetch_merged_prs_bounded_filtered
    (pd : String) (env : List (String × String) → HttpOutcome (List IssueItem))
    (code : Nat) (items : List IssueItem)
    (henv : env (issuesParams pd) = HttpOutcome.success code items)
    (hlen : items.length ≤ 50) :
    (code ≠ 200 → _fetch_merged_prs pd env = Except.ok []) ∧
    (code = 200 → ∃ prs, _fetch_merged_prs pd env = Except.ok prs ∧ prs.length ≤ 50 ∧
      ∀ pr ∈ prs, ∃ item ∈ items,
        (∃ pf, item.pull_request = some pf ∧ ∃ m, pf.merged_at = some m) ∧ pr = toPR item) ∧
    issuesParams pd =
      [("state", "closed"), ("sort", "updated"), ("direction", "desc"),
       ("since", pd), ("per_page", "50")] := by
  refine ⟨?_, ?_, rfl⟩
  · intro hne
    unfold _fetch_merged_prs
    rw [henv]
    simp [hne]
  · intro h200
    subst h200
    refine ⟨(items.filter isEligiblePR).map toPR, ?_, ?_, ?_⟩
    · unfold _fetch_merged_prs
      rw [henv]
      simp
    · calc ((items.filter isEligiblePR).map toPR).length
          = (items.filter isEligiblePR).length := List.length_map _ _
        _ ≤ items.length := List.length_filter_le _ _
        _ ≤ 50 := hlen
    · intro pr hpr
      obtain ⟨item, hitem, rfl⟩ := List.mem_map.mp hpr
      obtain ⟨hin, helig⟩ := List.mem_filter.mp hitem
      obtain ⟨pf, hpf, m, hm, _⟩ := eligible_fields item helig
      exact ⟨item, hin, ⟨pf, hpf, m, hm⟩, rfl⟩

theorem fetch_merged_prs_bounded_filtered_witness :
    ((200 ≠ 200 → _fetch_merged_prs "2024-04-10T12:00:00Z" c5env = Except.ok []) ∧
     (200 = 200 → ∃ prs, _fetch_merged_prs "2024-04-10T12:00:00Z" c5env = Except.ok prs ∧
        prs.length ≤ 50 ∧
        ∀ pr ∈ prs, ∃ item ∈ [c5item],
          (∃ pf, item.pull_request = some pf ∧ ∃ m, pf.merged_at = some m) ∧ pr = toPR item) ∧
     issuesParams "2024-04-10T12:00:00Z" =
       [("state", "closed"), ("sort", "updated"), ("direction", "desc"),
        ("since", "2024-04-10T12:00:00Z"), ("per_page", "50")]) :=
  fetch_merged_prs_bounded_filtered "2024-04-10T12:00:00Z" c5env 200 [c5item] rfl (by decide)

/-- C6 counterexample: a round containing a single request for the
registered tool `get_release_prs` whose execution raises (transport error
in the release-tag lookup) aborts with no result list, so "each request
produces exactly one result" fails as stated. -/
theorem execRound_aborts_on_tool_exception :
    AVAILABLE_TOOLS.contains "get_release_prs" = true ∧
    (execRound c6BadRunTool [{ name := "get_release_prs" }]).isOk = false :=
  ⟨rfl, rfl⟩

/-- C6 (amended): in every tool-execution round in which each registered
tool's execution returns normally, each invocation request yields exactly
one result — a success payload for a registered name, an error-tagged
result (not a halt) for an unregistered one — and the whole round's results
are handed to the model session as one batched message before the next
turn. -/
theorem execRound_one_result_per_request
    (runTool : FunctionCall → Except String String) (calls : List FunctionCall)
    (hok : ∀ c ∈ calls, AVAILABLE_TOOLS.contains c.name = true →
      ∃ out, runTool c = Except.ok out) :
    ∃ results, execRound runTool calls = Except.ok results ∧
      List.Forall₂ (fun (c : FunctionCall) (r : ToolResult) =>
        (AVAILABLE_TOOLS.contains c.name = true →
          ∃ out, runTool c = Except.ok out ∧ r = ToolResult.output c.name out) ∧
        (AVAILABLE_TOOLS.contains c.name = false →
          r = ToolResult.err c.name ("Function " ++ c.name ++ " not found."))) calls results ∧
      ∀ (send : List ToolResult → ModelResponse) (fuel : Nat) (resp : ModelResponse),
        resp.function_calls = calls → calls ≠ [] →
        handle_tool_call send runTool (fuel + 1) resp =
          handle_tool_call send runTool fuel (send results) := by
  induction calls with
  | nil =>
    refine ⟨[], rfl, List.Forall₂.nil, ?_⟩
    intro send fuel resp hcalls hne
    exact absurd rfl hne
  | cons c cs ih =>
    obtain ⟨rs, hrs, hall, _⟩ := ih (fun d hd hreg => hok d (List.mem_cons_of_mem _ hd) hreg)
    cases hreg : AVAILABLE_TOOLS.contains c.name with
    | true =>
      obtain ⟨out, hout⟩ := hok c (List.mem_cons_self c cs) hreg
      have hexec : execRound runTool (c :: cs) =
          Except.ok (ToolResult.output c.name out :: rs) := by
        simp only [execRound]
        rw [hreg, if_pos rfl, hout, hrs]
      refine ⟨ToolResult.output c.name out :: rs, hexec, ?_, ?_⟩
      · refine List.Forall₂.cons ⟨fun _ => ⟨out, hout, rfl⟩, fun hf => ?_⟩ hall
        rw [hreg] at hf
        cases hf
      · intro send fuel resp hcalls hne
        simp only [handle_tool_call, hcalls, List.isEmpty_cons, hexec]
        rw [if_neg (by decide)]
    | false =>
      have hexec : execRound runTool (c :: cs) =
          Except.ok (ToolResult.err c.name ("Function " ++ c.name ++ " not found.") :: rs) := by
        simp only [execRound]
        rw [hreg, if_neg (by decide), hrs]
      refine ⟨ToolResult.err c.name ("Function " ++ c.name ++ " not found.") :: rs, hexec, ?_, ?_⟩
      · refine List.Forall₂.cons ⟨fun hf => ?_, fun _ => rfl⟩ hall
        rw [hreg] at hf
        cases hf
      · intro send fuel resp hcalls hne
        simp only [handle_tool_call, hcalls, List.isEmpty_cons, hexec]
        rw [if_neg (by decide)]

theorem execRound_one_result_per_request_witness :
    ∃ results, execRound c6RunTool
        [{ name := "check_latest_release" }, { name := "bogus_tool" }] = Except.ok results ∧
      List.Forall₂ (fun (c : FunctionCall) (r : ToolResult) =>
        (AVAILABLE_TOOLS.contains c.name = true →
          ∃ out, c6RunTool c = Except.ok out ∧ r = ToolResult.output c.name out) ∧
        (AVAILABLE_TOOLS.contains c.name = false →
          r = ToolResult.err c.name ("Function " ++ c.name ++ " not found.")))
        [{ name := "check_latest_release" }, { name := "bogus_tool" }] results ∧
      ∀ (send : List ToolResult → ModelResponse) (fuel : Nat) (resp : ModelResponse),
        resp.function_calls = [{ name := "check_latest_release" }, { name := "bogus_tool" }] →
        [({ name := "check_latest_release" } : FunctionCall), { name := "bogus_tool" }] ≠ [] →
        handle_tool_call send c6RunTool (fuel + 1) resp =
          handle_tool_call send c6RunTool fuel (send results) :=
  execRound_one_result_per_request c6RunTool
    [{ name := "check_latest_release" }, { name := "bogus_tool" }]
    (fun c _ _ => ⟨"SUCCESS: ran " ++ c.name, rfl⟩)

/-- C7: the report built by `get_release_prs` is byte-identical to the
specification-side report whose total is the sum of the three buckets'
sizes, so the reported "Total Relevant PRs Found" equals that sum. -/
theorem report_total_eq_sum_of_buckets (org_name repo_name tag_name : String) (prs : List PR) :
    buildReport org_name repo_name tag_name prs =
      specReportTotalFromBuckets org_name repo_name tag_name prs := by
  simp only [buildReport, specReportTotalFromBuckets, categorize_eq, List.length_map]
  rw [length_filter_three]

/-- C8: for a fetched content of at least 10 lines, `get_dependency_file`
returns exactly the first 10 lines (the kept prefix has length 10), joined
back with line breaks and wrapped in a fenced code snippet. -/
theorem get_dependency_file_first_ten_lines (org_name repo_name file_path content : String)
    (h : 10 ≤ (pySplitNl content).length) :
    ((pySplitNl content).take 10).length = 10 ∧
    get_dependency_file org_name repo_name file_path (HttpOutcome.success 200 content) =
      "SUCCESS: Content of `" ++ file_path ++ "`:\n```\n" ++ specFirstTenLines content ++
        "\n```" := by
  constructor
  · simpa using Nat.min_eq_left h
  · rfl

theorem get_dependency_file_first_ten_lines_witness :
    (((pySplitNl content20).take 10).length = 10 ∧
    get_dependency_file "grafana" "grafana" "package.json" (HttpOutcome.success 200 content20) =
      "SUCCESS: Content of `" ++ "package.json" ++ "`:\n```\n" ++ specFirstTenLines content20 ++
        "\n```") :=
  get_dependency_file_first_ten_lines "grafana" "grafana" "package.json" content20 (by decide)

/-- C9: whenever the candidate PR list is empty, `get_release_prs` returns
the single SUCCESS-prefixed sentence reporting "no recently merged Pull
Requests" rather than an empty bucket dump. -/
theorem get_release_prs_empty_pr_list_message (org_name repo_name tag_name now : String)
    (relData : ReleaseJson)
    (issuesEnv : List (String × String) → HttpOutcome (List IssueItem))
    (h : _fetch_merged_prs (relData.published_at.getD now) issuesEnv = Except.ok []) :
    get_release_prs org_name repo_name tag_name now (HttpOutcome.success 200 relData) issuesEnv =
      Except.ok ("SUCCESS: Found no recently merged Pull Requests for release `" ++
        tag_name ++ "`.") ∧
    charsStartWith "SUCCESS:".data
      ("SUCCESS: Found no recently merged Pull Requests for release `" ++
        tag_name ++ "`.").data = true := by
  constructor
  · simp only [get_release_prs]
    rw [if_neg (by decide), h]
    rfl
  · repeat apply startTag_append
    decide

theorem get_release_prs_empty_pr_list_message_witness :
    (get_release_prs "argoproj" "argo-cd" "v2.9.0" "2024-05-01T00:00:00"
        (HttpOutcome.success 200 c9rel) c9env =
      Except.ok ("SUCCESS: Found no recently merged Pull Requests for release `" ++
        "v2.9.0" ++ "`.") ∧
    charsStartWith "SUCCESS:".data
      ("SUCCESS: Found no recently merged Pull Requests for release `" ++
        "v2.9.0" ++ "`.").data = true) :=
  get_release_prs_empty_pr_list_message "argoproj" "argo-cd" "v2.9.0" "2024-05-01T00:00:00"
    c9rel c9env rfl

/-- C10: label matching is exact equality after lower-casing, not substring
containment: a PR whose single label lower-cases to something outside both
keyword lists falls to "Other Changes" unless its title starts with
`fix`/`feat`, while a label lower-casing to a listed keyword triggers
rule 1 or rule 2. -/
theorem label_match_is_exact_equality (n : Nat) (t u lbl : String) :
    (pyLower lbl ∉ BUG_KEYWORDS → pyLower lbl ∉ ENHANCEMENT_KEYWORDS →
      pyStartswith (pyLower t) "fix" = false → pyStartswith (pyLower t) "feat" = false →
      categorize [{ number := n, title := t, labels := [lbl], url := u }] =
        ([], [], [entryOf { number := n, title := t, labels := [lbl], url := u }])) ∧
    (pyLower lbl ∈ BUG_KEYWORDS →
      categorize [{ number := n, title := t, labels := [lbl], url := u }] =
        ([entryOf { number := n, title := t, labels := [lbl], url := u }], [], [])) ∧
    (pyLower lbl ∈ ENHANCEMENT_KEYWORDS → pyLower lbl ∉ BUG_KEYWORDS →
      pyStartswith (pyLower t) "fix" = false →
      categorize [{ number := n, title := t, labels := [lbl], url := u }] =
        ([], [entryOf { number := n, title := t, labels := [lbl], url := u }], [])) := by
  refine ⟨?_, ?_, ?_⟩
  · intro h1 h2 h3 h4
    have hlb : labelsMatchBug { number := n, title := t, labels := [lbl], url := u } = false := by
      cases hcase : labelsMatchBug { number := n, title := t, labels := [lbl], url := u } with
      | false => rfl
      | true => exact absurd ((labelsMatchBug_singleton n t u lbl).mp hcase) h1
    have hle : labelsMatchEnh { number := n, title := t, labels := [lbl], url := u } = false := by
      cases hcase : labelsMatchEnh { number := n, title := t, labels := [lbl], url := u } with
      | false => rfl
      | true => exact absurd ((labelsMatchEnh_singleton n t u lbl).mp hcase) h2
    have hbug : bugMatch { number := n, title := t, labels := [lbl], url := u } = false := by
      simp [bugMatch, hlb, h3]
    have henh : enhMatch { number := n, title := t, labels := [lbl], url := u } = false := by
      simp [enhMatch, hle, h4]
    show categorizeStep ([], [], []) _ = _
    rw [categorizeStep_eq]
    simp [hbug, henh]
  · intro h1
    have hlb : labelsMatchBug { number := n, title := t, labels := [lbl], url := u } = true :=
      (labelsMatchBug_singleton n t u lbl).mpr h1
    have hbug : bugMatch { number := n, title := t, labels := [lbl], url := u } = true := by
      simp [bugMatch, hlb]
    show categorizeStep ([], [], []) _ = _
    rw [categorizeStep_eq]
    simp [hbug]
  · intro h1 h2 h3
    have hlb : labelsMatchBug { number := n, title := t, labels := [lbl], url := u } = false := by
      cases hcase : labelsMatchBug { number := n, title := t, labels := [lbl], url := u } with
      | false => rfl
      | true => exact absurd ((labelsMatchBug_singleton n t u lbl).mp hcase) h2
    have hle : labelsMatchEnh { number := n, title := t, labels := [lbl], url := u } = true :=
      (labelsMatchEnh_singleton n t u lbl).mpr h1
    have hbug : bugMatch { number := n, title := t, labels := [lbl], url := u } = false := by
      simp [bugMatch, hlb, h3]
    have henh : enhMatch { number := n, title := t, labels := [lbl], url := u } = true := by
      simp [enhMatch, hle]
    show categorizeStep ([], [], []) _ = _
    rw [categorizeStep_eq]
    simp [hbug, henh]

theorem label_match_is_exact_equality_witness :
    categorize [{ number := 12, title := "Update docs", labels := ["bugfix"], url := "u12" }] =
      ([], [], [entryOf { number := 12, title := "Update docs", labels := ["bugfix"], url := "u12" }]) :=
  (label_match_is_exact_equality 12 "Update docs" "u12" "bugfix").1
    (by decide) (by decide) (by decide) (by decide)
